import Mathlib

/-!
Shallow embedding of the configuration synthesis core of
`create-chrome-extension` (src/index.ts): option normalization, manifest
synthesis, file-plan construction and dependency resolution.  The interactive
prompting and filesystem writes of the source are external collaborators; the
embedding captures the pure decision logic that maps the collected options to
the manifest descriptor, the ordered file plan and the merged package
descriptor.
-/

/-- Popup implementation language (the popup language select of src/index.ts,
values `html`, `ts`, `react`). -/
inductive PopupLang
  | html
  | ts
  | react
deriving DecidableEq

/-- Language of a background or content script (values `js`, `ts`). -/
inductive ScriptLang
  | js
  | ts
deriving DecidableEq

/-- The set of optional features, as chosen in the `additionalFeatures`
multiselect: a subset of the five feature values, represented by one flag per
value.  `opts.additionalFeatures.background` plays the role of
`additionalFeatures.includes("background")` in the source. -/
structure Features where
  background : Bool := false
  content : Bool := false
  popup : Bool := false
  options : Bool := false
  devtools : Bool := false
deriving DecidableEq

/-- Effective build options after normalization: a subset of the six
non-sentinel build option values. -/
structure BuildOptions where
  package : Bool := false
  bundlerWebpack : Bool := false
  bundlerRollup : Bool := false
  jqueryNpm : Bool := false
  jqueryCdn : Bool := false
  esmodules : Bool := false
deriving DecidableEq

/-- `buildOptions.length === 0` on the normalized selection. -/
def BuildOptions.isEmpty (b : BuildOptions) : Bool :=
  !(b.package || b.bundlerWebpack || b.bundlerRollup || b.jqueryNpm ||
    b.jqueryCdn || b.esmodules)

/-- Raw build-option selection, including the `none` sentinel entry of the
multiselect (src/index.ts lines 160-171). -/
structure RawBuildOptions where
  package : Bool := false
  bundlerWebpack : Bool := false
  bundlerRollup : Bool := false
  jqueryNpm : Bool := false
  jqueryCdn : Bool := false
  esmodules : Bool := false
  noneSentinel : Bool := false
deriving DecidableEq

/-- The sentinel rewrite of `buildOptions`
(src/index.ts lines 172-176): the sentinel overrides every other selection. -/
def normalizeBuildOptions (rb : RawBuildOptions) : BuildOptions :=
  if rb.noneSentinel then
    {}
  else
    { package := rb.package
      bundlerWebpack := rb.bundlerWebpack
      bundlerRollup := rb.bundlerRollup
      jqueryNpm := rb.jqueryNpm
      jqueryCdn := rb.jqueryCdn
      esmodules := rb.esmodules }

/-- Fully normalized options: the values held by `main` after all prompts have
been validated and defaulted (src/index.ts lines 18-183). -/
structure Options where
  extensionName : String
  extensionDescription : String
  manifestVersion : Nat
  permissions : List String
  icons : List (String × String)
  additionalFeatures : Features
  popupLang : PopupLang
  backgroundLang : ScriptLang
  contentLang : ScriptLang
  useSrcFolder : Bool
  buildOptions : BuildOptions
deriving DecidableEq

/-- One entry of the `content_scripts` array of the manifest.  `matchUrls`
embeds the `matches` key of the JSON object. -/
structure ContentScript where
  matchUrls : List String
  js : List String
deriving DecidableEq

/-- The `background` field of the manifest: either the V3 service-worker form
(with the optional `type: "module"` marker) or the V2 scripts form. -/
inductive Background
  | v3 (service_worker : String) (moduleType : Bool)
  | v2 (scripts : List String) (persistent : Bool)
deriving DecidableEq

/-- The `action` / `browser_action` object of the manifest; `{}` is the empty
stub with no `default_popup`. -/
structure ActionField where
  default_popup : Option String := none
deriving DecidableEq

/-- The V3 `options_ui` object. -/
structure OptionsUi where
  page : String
  open_in_tab : Bool
deriving DecidableEq

/-- The manifest descriptor assembled by `main` (src/index.ts lines 203-366).
Every optional field is `none` when the corresponding key is never assigned. -/
structure Manifest where
  manifest_version : Nat
  name : String
  version : String
  description : String
  permissions : List String
  icons : Option (List (String × String)) := none
  background : Option Background := none
  content_scripts : Option (List ContentScript) := none
  options_ui : Option OptionsUi := none
  options_page : Option String := none
  devtools_page : Option String := none
  action : Option ActionField := none
  browser_action : Option ActionField := none
deriving DecidableEq

/-- Manifest synthesis (src/index.ts lines 203-366).  The source assigns each
optional key in exactly one feature block, so the assignment chain is rendered
field-wise: each field carries the condition under which its block assigns it.
The popup block assigns `action` whenever `manifestVersion === 3` (with
`default_popup` only when the popup feature is selected, otherwise the empty
stub) and `browser_action` in the same way otherwise. -/
def synthManifest (opts : Options) : Manifest where
  manifest_version := opts.manifestVersion
  name := opts.extensionName
  version := "1.0.0"
  description := opts.extensionDescription
  permissions := opts.permissions
  icons := if opts.icons.length > 0 then some opts.icons else none
  background :=
    if opts.additionalFeatures.background then
      if opts.manifestVersion == 3 then
        some (Background.v3 "background.js" opts.buildOptions.esmodules)
      else
        some (Background.v2 ["background.js"] false)
    else none
  content_scripts :=
    if opts.additionalFeatures.content then
      some [{ matchUrls := ["<all_urls>"], js := ["content.js"] }]
    else none
  options_ui :=
    if opts.additionalFeatures.options && (opts.manifestVersion == 3) then
      some { page := "options.html", open_in_tab := true }
    else none
  options_page :=
    if opts.additionalFeatures.options && !(opts.manifestVersion == 3) then
      some "options.html"
    else none
  devtools_page :=
    if opts.additionalFeatures.devtools && (opts.manifestVersion == 2) then
      some "devtools.html"
    else none
  action :=
    if opts.manifestVersion == 3 then
      some { default_popup :=
               if opts.additionalFeatures.popup then some "popup.html" else none }
    else none
  browser_action :=
    if !(opts.manifestVersion == 3) then
      some { default_popup :=
               if opts.additionalFeatures.popup then some "popup.html" else none }
    else none

/-- The `filePath` helper (src/index.ts lines 198-200): non-manifest files go
below `src/` exactly when the source-folder option is set. -/
def filePath (opts : Options) (filename : String) : String :=
  (if opts.useSrcFolder then "src/" else "") ++ filename

/-- `bgFileName` (src/index.ts line 224). -/
def bgFileName (opts : Options) : String :=
  if opts.backgroundLang == ScriptLang.ts then "background.ts" else "background.js"

/-- Background script boilerplate (src/index.ts lines 225-228). -/
def bgFileContent (opts : Options) : String :=
  "// " ++ (if opts.backgroundLang == ScriptLang.ts then "TypeScript" else "JavaScript")
    ++ " background script\nconsole.log(\x27Background script running\x27);\n"

/-- `contentFileName` (src/index.ts line 237). -/
def contentFileName (opts : Options) : String :=
  if opts.contentLang == ScriptLang.ts then "content.ts" else "content.js"

/-- Content script boilerplate (src/index.ts lines 238-241). -/
def contentFileContent (opts : Options) : String :=
  "// " ++ (if opts.contentLang == ScriptLang.ts then "TypeScript" else "JavaScript")
    ++ " content script\nconsole.log(\x27Content script injected\x27);\n"

/-- The jQuery CDN tag that replaces `</head>` when `jquery-cdn` is selected
(src/index.ts lines 256-261 and the analogous blocks). -/
def jqueryHeadReplacement : String :=
  "  <script src=\"https://code.jquery.com/jquery-3.6.0.min.js\"></script>\n</head>"

/-- Applies the `jquery-cdn` head injection to an HTML template. -/
def withJqueryCdn (opts : Options) (html : String) : String :=
  if opts.buildOptions.jqueryCdn then
    html.replace "</head>" jqueryHeadReplacement
  else html

/-- `options.html` content (src/index.ts lines 246-261). -/
def optionsHTML (opts : Options) : String :=
  withJqueryCdn opts
    "<!DOCTYPE html>\n<html>\n<head>\n  <meta charset=\"utf-8\">\n  <title>Options</title>\n</head>\n<body>\n  <h1>Extension Options</h1>\n</body>\n</html>\n"

/-- `devtools.html` content (src/index.ts lines 272-287). -/
def devtoolsHTML (opts : Options) : String :=
  withJqueryCdn opts
    "<!DOCTYPE html>\n<html>\n<head>\n  <meta charset=\"utf-8\">\n  <title>DevTools</title>\n</head>\n<body>\n  <h1>DevTools Page</h1>\n</body>\n</html>\n"

/-- The `type="module"` attribute added to the popup script tag when
`esmodules` is selected. -/
def moduleAttr (opts : Options) : String :=
  if opts.buildOptions.esmodules then " type=\"module\"" else ""

/-- The popup script tag shared by the three popup templates. -/
def popupScriptTag (opts : Options) : String :=
  "  <script src=\"popup.js\"" ++ moduleAttr opts ++ "></script>\n"

/-- `popupHTMLContent` (src/index.ts lines 302-358): one of three templates
selected by the popup language, then the jQuery CDN injection. -/
def popupHTMLContent (opts : Options) : String :=
  withJqueryCdn opts
    (match opts.popupLang with
     | PopupLang.html =>
         "<!DOCTYPE html>\n<html>\n<head>\n  <meta charset=\"utf-8\">\n  <title>Popup</title>\n</head>\n<body>\n  <h1>Hello from Popup</h1>\n"
           ++ popupScriptTag opts ++ "</body>\n</html>\n"
     | PopupLang.ts =>
         "<!DOCTYPE html>\n<html>\n<head>\n  <meta charset=\"utf-8\">\n  <title>Popup</title>\n</head>\n<body>\n  <h1>Popup (TypeScript)</h1>\n  <!-- Compile popup.ts to popup.js -->\n"
           ++ popupScriptTag opts ++ "</body>\n</html>\n"
     | PopupLang.react =>
         "<!DOCTYPE html>\n<html>\n<head>\n  <meta charset=\"utf-8\">\n  <title>Popup</title>\n</head>\n<body>\n  <div id=\"root\"></div>\n  <!-- Bundle popup.tsx to popup.js -->\n"
           ++ popupScriptTag opts ++ "</body>\n</html>\n")

/-- Name of the authored popup source file (src/index.ts lines 315, 329, 343). -/
def popupSrcName (opts : Options) : String :=
  match opts.popupLang with
  | PopupLang.html => "popup.js"
  | PopupLang.ts => "popup.ts"
  | PopupLang.react => "popup.tsx"

/-- Content of `popup.tsx` (src/index.ts lines 343-351). -/
def reactPopupContent : String :=
  "import React from \x27react\x27;\nimport ReactDOM from \x27react-dom\x27;\n\nconst App = () => \x7b\n  return <h1>Hello from React Popup!</h1>;\n\x7d;\n\nReactDOM.render(<App />, document.getElementById(\x27root\x27));\n"

/-- Content of the authored popup source file. -/
def popupSrcContent (opts : Options) : String :=
  match opts.popupLang with
  | PopupLang.html => "console.log(\x27Popup JS loaded\x27);\n"
  | PopupLang.ts => "console.log(\x27Popup TypeScript loaded\x27);\n"
  | PopupLang.react => reactPopupContent

/-- A virtual file produced by the generator: a path relative to the extension
directory plus its text content. -/
structure FileArtifact where
  relativePath : String
  content : String
deriving DecidableEq

/-- Minimal JSON value type used to serialize the manifest, mirroring the
shape `JSON.stringify` receives. -/
inductive Json
  | str (s : String)
  | num (n : Nat)
  | jbool (b : Bool)
  | arr (xs : List Json)
  | obj (fields : List (String × Json))

/-- Two-space indentation at nesting depth `d`. -/
def jsonIndent (d : Nat) : String := String.join (List.replicate d "  ")

/-- Escaping of one character inside a JSON string literal. -/
def jsonEscapeChar (c : Char) : String :=
  if c = '\"' then "\\\""
  else if c = '\\' then "\\\\"
  else if c = '\n' then "\\n"
  else if c = '\t' then "\\t"
  else if c = '\r' then "\\r"
  else String.singleton c

/-- Escaping of a JSON string literal body. -/
def jsonEscape (s : String) : String := String.join (s.data.map jsonEscapeChar)

mutual
/-- `JSON.stringify(value, null, 2)` at nesting depth `d`. -/
def Json.render (d : Nat) : Json → String
  | Json.str s => "\"" ++ jsonEscape s ++ "\""
  | Json.num n => toString n
  | Json.jbool b => if b then "true" else "false"
  | Json.arr [] => "[]"
  | Json.arr (x :: xs) =>
      "[\n" ++ String.intercalate ",\n" (Json.renderItems (d + 1) (x :: xs))
        ++ "\n" ++ jsonIndent d ++ "]"
  | Json.obj [] => "\x7b\x7d"
  | Json.obj (f :: fs) =>
      "\x7b\n" ++ String.intercalate ",\n" (Json.renderFields (d + 1) (f :: fs))
        ++ "\n" ++ jsonIndent d ++ "\x7d"

/-- Renders the elements of a JSON array, one indented line each. -/
def Json.renderItems (d : Nat) : List Json → List String
  | [] => []
  | x :: xs => (jsonIndent d ++ Json.render d x) :: Json.renderItems d xs

/-- Renders the key-value pairs of a JSON object, one indented line each. -/
def Json.renderFields (d : Nat) : List (String × Json) → List String
  | [] => []
  | (k, v) :: fs =>
      (jsonIndent d ++ "\"" ++ jsonEscape k ++ "\": " ++ Json.render d v)
        :: Json.renderFields d fs
end

/-- The JSON object serialized for `manifest.json`, with keys in the insertion
order of the assignments in the source. -/
def Manifest.toJson (m : Manifest) : Json :=
  Json.obj
    ([("manifest_version", Json.num m.manifest_version),
      ("name", Json.str m.name),
      ("version", Json.str m.version),
      ("description", Json.str m.description),
      ("permissions", Json.arr (m.permissions.map Json.str))]
     ++ (match m.icons with
         | some ics => [("icons", Json.obj (ics.map (fun p => (p.1, Json.str p.2))))]
         | none => [])
     ++ (match m.background with
         | some (Background.v3 sw esm) =>
             [("background",
               Json.obj ([("service_worker", Json.str sw)]
                 ++ (if esm then [("type", Json.str "module")] else [])))]
         | some (Background.v2 ss p) =>
             [("background",
               Json.obj [("scripts", Json.arr (ss.map Json.str)),
                         ("persistent", Json.jbool p)])]
         | none => [])
     ++ (match m.content_scripts with
         | some cs =>
             [("content_scripts",
               Json.arr (cs.map (fun c =>
                 Json.obj [("matches", Json.arr (c.matchUrls.map Json.str)),
                           ("js", Json.arr (c.js.map Json.str))])))]
         | none => [])
     ++ (match m.options_ui with
         | some u => [("options_ui",
                       Json.obj [("page", Json.str u.page),
                                 ("open_in_tab", Json.jbool u.open_in_tab)])]
         | none => [])
     ++ (match m.options_page with
         | some p => [("options_page", Json.str p)]
         | none => [])
     ++ (match m.devtools_page with
         | some p => [("devtools_page", Json.str p)]
         | none => [])
     ++ (match m.action with
         | some a =>
             [("action", Json.obj (match a.default_popup with
                 | some dp => [("default_popup", Json.str dp)]
                 | none => []))]
         | none => [])
     ++ (match m.browser_action with
         | some a =>
             [("browser_action", Json.obj (match a.default_popup with
                 | some dp => [("default_popup", Json.str dp)]
                 | none => []))]
         | none => []))

/-- `JSON.stringify(manifest, null, 2)` (src/index.ts line 369). -/
def renderManifest (m : Manifest) : String := Json.render 0 m.toJson

/-- The ordered file plan: one artifact per `fs.writeFileSync` of the feature
blocks (src/index.ts lines 214-359), in source order, followed by the
`manifest.json` artifact written at the project root (line 369). -/
def filePlan (opts : Options) : List FileArtifact :=
  (if opts.additionalFeatures.background then
     [{ relativePath := filePath opts (bgFileName opts), content := bgFileContent opts }]
   else [])
  ++ (if opts.additionalFeatures.content then
        [{ relativePath := filePath opts (contentFileName opts), content := contentFileContent opts }]
      else [])
  ++ (if opts.additionalFeatures.options then
        [{ relativePath := filePath opts "options.html", content := optionsHTML opts }]
      else [])
  ++ (if opts.additionalFeatures.devtools && (opts.manifestVersion == 2) then
        [{ relativePath := filePath opts "devtools.html", content := devtoolsHTML opts }]
      else [])
  ++ (if opts.additionalFeatures.popup then
        [{ relativePath := filePath opts (popupSrcName opts), content := popupSrcContent opts },
         { relativePath := filePath opts "popup.html", content := popupHTMLContent opts }]
      else [])
  ++ [{ relativePath := "manifest.json", content := renderManifest (synthManifest opts) }]

/-- A string-valued JSON map (`scripts`, `dependencies`, `devDependencies`),
kept as an ordered association list to preserve JSON key order. -/
abbrev EntryMap : Type := List (String × String)

/-- Property lookup: `m[k]`, `none` when the key is absent. -/
def getEntry (m : EntryMap) (k : String) : Option String :=
  match m with
  | [] => none
  | (k0, v0) :: rest => if k0 == k then some v0 else getEntry rest k

/-- Property assignment `m[k] = v`: overwrites in place, appends a fresh key. -/
def setEntry (m : EntryMap) (k v : String) : EntryMap :=
  match m with
  | [] => [(k, v)]
  | (k0, v0) :: rest =>
      if k0 == k then (k0, v) :: rest else (k0, v0) :: setEntry rest k v

/-- JavaScript truthiness of a possibly-absent string property: an absent key
and the empty string are both falsy. -/
def truthyStr (o : Option String) : Bool :=
  match o with
  | some s => !s.isEmpty
  | none => false

/-- `m[k] = m[k] || d`: keeps a truthy existing value, otherwise writes `d`. -/
def setDefaultEntry (m : EntryMap) (k d : String) : EntryMap :=
  if truthyStr (getEntry m k) then m else setEntry m k d

/-- `o || d` for a possibly-absent string property. -/
def orDefaultStr (o : Option String) (d : String) : String :=
  match o with
  | some s => if s.isEmpty then d else s
  | none => d

/-- The package descriptor (`package.json`): every field is optional, matching
an arbitrary pre-existing file.  `none` means the key is absent. -/
structure Pkg where
  name : Option String := none
  version : Option String := none
  scripts : Option EntryMap := none
  devDependencies : Option EntryMap := none
  dependencies : Option EntryMap := none
deriving DecidableEq

/-- `extensionName.toLowerCase().replace(whitespace-runs, hyphen)` (src/index.ts line 378):
every maximal whitespace run becomes a single hyphen. -/
def hyphenateWhitespace (s : String) : String :=
  (s.data.foldl
    (fun (acc : String × Bool) c =>
      if c.isWhitespace then
        if acc.2 then acc else (acc.1.push '-', true)
      else (acc.1.push c, false))
    ("", false)).1

/-- The default package name derived from the extension name. -/
def defaultPkgName (opts : Options) : String :=
  hyphenateWhitespace opts.extensionName.toLower

/-- Whether any selected language requires the TypeScript toolchain
(src/index.ts lines 388, 395, 401). -/
def tsNeeded (opts : Options) : Bool :=
  opts.backgroundLang == ScriptLang.ts || opts.contentLang == ScriptLang.ts ||
    opts.popupLang == PopupLang.ts || opts.popupLang == PopupLang.react

/-- The common shape of the two bundler blocks (src/index.ts lines 385-398):
when `flag` is selected, two dev dependencies are added with first-write-wins
defaults, then `typescript` is pinned when a TypeScript-flavoured language is
in use and the key is not already truthy. -/
def bundlerBlock (flag : Bool) (k1 v1 k2 v2 : String) (needTs : Bool)
    (dd : EntryMap) : EntryMap :=
  if flag then
    let d := setDefaultEntry (setDefaultEntry dd k1 v1) k2 v2
    if needTs && !(truthyStr (getEntry d "typescript")) then
      setEntry d "typescript" "^4.9.5"
    else d
  else dd

/-- The `bundler-webpack` block (src/index.ts lines 385-391). -/
def webpackBlock (opts : Options) (dd : EntryMap) : EntryMap :=
  bundlerBlock opts.buildOptions.bundlerWebpack "webpack" "^5.0.0"
    "webpack-cli" "^4.0.0" (tsNeeded opts) dd

/-- The `bundler-rollup` block (src/index.ts lines 392-398). -/
def rollupBlock (opts : Options) (dd : EntryMap) : EntryMap :=
  bundlerBlock opts.buildOptions.bundlerRollup "rollup" "^2.0.0"
    "rollup-plugin-typescript2" "^0.34.1" (tsNeeded opts) dd

/-- The dev-dependency half of the `jquery-npm` block (src/index.ts
lines 401-403). -/
def jqueryDevBlock (opts : Options) (dd : EntryMap) : EntryMap :=
  if opts.buildOptions.jqueryNpm then
    if tsNeeded opts then setDefaultEntry dd "@types/jquery" "^3.5.14" else dd
  else dd

/-- The runtime-dependency half of the `jquery-npm` block (src/index.ts
lines 399-400). -/
def jqueryDepBlock (opts : Options) (deps : EntryMap) : EntryMap :=
  if opts.buildOptions.jqueryNpm then
    setDefaultEntry deps "jquery" "^3.6.0"
  else deps

/-- The package-descriptor merge of src/index.ts lines 372-405: every base
field is filled with `pkg.field = pkg.field || default`, then the selected
build-option blocks add their entries, each with the same first-write-wins
(`||` respectively `!present` guarded) policy. -/
def mergePkg (opts : Options) (pre : Pkg) : Pkg where
  name := some (orDefaultStr pre.name (defaultPkgName opts))
  version := some (orDefaultStr pre.version "1.0.0")
  scripts := some (setDefaultEntry (pre.scripts.getD []) "build" "tsc")
  devDependencies :=
    some (jqueryDevBlock opts (rollupBlock opts (webpackBlock opts
            (pre.devDependencies.getD []))))
  dependencies := some (jqueryDepBlock opts (pre.dependencies.getD []))

/-- Validation failures of the option normalizer (spec section 7): a required
text or selection is absent, or the permission set is empty. -/
inductive NormError
  | MissingField
  | EmptySet
deriving DecidableEq

/-- The raw, possibly-missing option bag delivered by the prompts.  `none`
models a prompt answered with the cancel symbol (`typeof x !== "string"` /
`!Array.isArray(x)` in the source). -/
structure RawOptions where
  extNameRaw : Option String
  extDescRaw : Option String
  versionRaw : Option Nat
  permissionsRaw : Option (List String)
  addIcons : Bool
  icon16Raw : Option String
  icon48Raw : Option String
  icon128Raw : Option String
  additionalFeaturesRaw : Option Features
  popupLangRaw : Option PopupLang
  backgroundLangRaw : Option ScriptLang
  contentLangRaw : Option ScriptLang
  useSrcFolder : Bool
  buildOptionsRaw : Option RawBuildOptions
deriving DecidableEq

/-- `String.prototype.trim()`: removes leading and trailing whitespace,
modeled structurally on the character list so that it evaluates by
reduction. -/
def jsTrim (s : String) : String :=
  String.mk (((s.data.dropWhile Char.isWhitespace).reverse.dropWhile
    Char.isWhitespace).reverse)

/-- One optional icon entry: included only when the trimmed path is non-empty
(src/index.ts lines 84-94). -/
def iconEntry (k : String) (o : Option String) : List (String × String) :=
  let v := jsTrim (o.getD "")
  if v.isEmpty then [] else [(k, v)]

/-- The option normalizer (src/index.ts lines 18-183): trims the name and the
description, rejects a cancelled name, description or manifest version with
`MissingField`, rejects an empty permission set with `EmptySet`, drops blank
icon entries silently, defaults the per-feature languages (the language
prompts only run when the feature is selected), and applies the build-option
sentinel rewrite. -/
def normalizeOptions (raw : RawOptions) : Except NormError Options :=
  match raw.extNameRaw with
  | none => Except.error NormError.MissingField
  | some n =>
    match raw.extDescRaw with
    | none => Except.error NormError.MissingField
    | some d =>
      match raw.versionRaw with
      | none => Except.error NormError.MissingField
      | some v =>
        let permissions := raw.permissionsRaw.getD []
        if permissions.length == 0 then
          Except.error NormError.EmptySet
        else
          let features := raw.additionalFeaturesRaw.getD {}
          Except.ok
            { extensionName := jsTrim n
              extensionDescription := jsTrim d
              manifestVersion := v
              permissions := permissions
              icons :=
                if raw.addIcons then
                  iconEntry "16" raw.icon16Raw ++ iconEntry "48" raw.icon48Raw
                    ++ iconEntry "128" raw.icon128Raw
                else []
              additionalFeatures := features
              popupLang := if features.popup then raw.popupLangRaw.getD PopupLang.html else PopupLang.html
              backgroundLang := if features.background then raw.backgroundLangRaw.getD ScriptLang.js else ScriptLang.js
              contentLang := if features.content then raw.contentLangRaw.getD ScriptLang.js else ScriptLang.js
              useSrcFolder := raw.useSrcFolder
              buildOptions := normalizeBuildOptions (raw.buildOptionsRaw.getD {}) }

/-- The synthesized output triple: the manifest descriptor, the ordered file
plan, and the merged package descriptor (`none` when no `package.json` is
written). -/
structure SynthResult where
  manifest : Manifest
  filePlan : List FileArtifact
  pkg : Option Pkg
deriving DecidableEq

/-- The synthesis stage of `main` (src/index.ts lines 203-406): the three
generators run on the shared normalized options; `package.json` is produced
only when the effective build-option set is non-empty (line 372), merging over
the optional pre-existing descriptor. -/
def synthesize (opts : Options) (pre : Option Pkg) : SynthResult where
  manifest := synthManifest opts
  filePlan := filePlan opts
  pkg := if opts.buildOptions.isEmpty then none else some (mergePkg opts (pre.getD {}))

/-- The full pipeline: normalization feeds synthesis; a validation failure
propagates before any synthesis output exists. -/
def run (raw : RawOptions) (pre : Option Pkg) : Except NormError SynthResult :=
  (normalizeOptions raw).map (fun opts => synthesize opts pre)

/-- The filenames a `Background` field references. -/
def Background.refs : Background → List String
  | Background.v3 sw _ => [sw]
  | Background.v2 ss _ => ss

/-- Every filename referenced inside a manifest descriptor: background
scripts, content scripts, the options page, the devtools page, and the popup
page of `action` / `browser_action`. -/
def manifestRefs (m : Manifest) : List String :=
  ((m.background.map Background.refs).getD [])
  ++ ((m.content_scripts.getD []).map (fun c => c.js)).flatten
  ++ m.options_page.toList
  ++ (m.options_ui.map (fun u => u.page)).toList
  ++ m.devtools_page.toList
  ++ ((m.action.bind (fun a => a.default_popup)).toList)
  ++ ((m.browser_action.bind (fun a => a.default_popup)).toList)

/-- The authored file that backs a referenced filename: script references end
in `.js` in the manifest while the authored source may be the `.ts` variant;
all other references are authored under their own name. -/
def authoredFor (opts : Options) (r : String) : String :=
  if r == "background.js" then bgFileName opts
  else if r == "content.js" then contentFileName opts
  else r

/-- Whether a relative path lies below the `src/` source subdirectory. -/
def underSrc (s : String) : Bool :=
  s.data.take 4 == "src/".data

/-- A minimal valid normalized option set used for concrete instances. -/
def sampleOpts : Options where
  extensionName := "Demo"
  extensionDescription := "A demo extension"
  manifestVersion := 3
  permissions := ["storage"]
  icons := []
  additionalFeatures := {}
  popupLang := PopupLang.html
  backgroundLang := ScriptLang.js
  contentLang := ScriptLang.js
  useSrcFolder := false
  buildOptions := {}

/-- A raw option bag for which every prompt was answered. -/
def sampleRaw : RawOptions where
  extNameRaw := some "Demo"
  extDescRaw := some "A demo extension"
  versionRaw := some 3
  permissionsRaw := some ["storage"]
  addIcons := false
  icon16Raw := none
  icon48Raw := none
  icon128Raw := none
  additionalFeaturesRaw := none
  popupLangRaw := none
  backgroundLangRaw := none
  contentLangRaw := none
  useSrcFolder := false
  buildOptionsRaw := none

/-- Manifest V3 options with a TypeScript background script. -/
def c1opts : Options :=
  { sampleOpts with
      additionalFeatures := { background := true }
      backgroundLang := ScriptLang.ts }

/-- A raw option bag whose name is whitespace only. -/
def c3raw : RawOptions := { sampleRaw with extNameRaw := some "   " }

/-- The normalized options produced from `c3raw`. -/
def c3opts : Options := { sampleOpts with extensionName := "" }

/-- Options whose only effective build option is `package`. -/
def c5opts : Options := { sampleOpts with buildOptions := { package := true } }

/-- A pre-existing package descriptor whose `scripts.build` is present but
holds the empty string (a falsy value). -/
def c5pre : Pkg := { scripts := some [("build", "")] }

/-- A raw option bag with a cancelled name and an empty permission set. -/
def c9raw : RawOptions :=
  { sampleRaw with extNameRaw := none, permissionsRaw := some ([] : List String) }

theorem strAppendCancelLeft (p a b : String) (h : p ++ a = p ++ b) : a = b := by
  have hd := congrArg String.data h
  simp only [String.data_append] at hd
  exact String.ext (List.append_cancel_left hd)

theorem isEmpty_false_of_ne (s : String) (h : s ≠ "") : s.isEmpty = false := by
  rw [← Bool.not_eq_true, String.isEmpty_iff]
  exact h

theorem underSrc_src (s : String) : underSrc ("src/" ++ s) = true := rfl

theorem filePath_eq_iff (opts : Options) (a b : String) :
    filePath opts a = filePath opts b ↔ a = b := by
  constructor
  · exact fun h => strAppendCancelLeft _ _ _ h
  · intro h; rw [h]

theorem underSrc_filePath (opts : Options) (x : String) (h : underSrc x = false) :
    underSrc (filePath opts x) = opts.useSrcFolder := by
  unfold filePath
  cases hu : opts.useSrcFolder
  · simpa using h
  · simpa using underSrc_src x

theorem underSrc_bgFileName (opts : Options) : underSrc (bgFileName opts) = false := by
  unfold bgFileName
  cases h : opts.backgroundLang == ScriptLang.ts <;> simp <;> decide

theorem underSrc_contentFileName (opts : Options) :
    underSrc (contentFileName opts) = false := by
  unfold contentFileName
  cases h : opts.contentLang == ScriptLang.ts <;> simp <;> decide

theorem underSrc_popupSrcName (opts : Options) : underSrc (popupSrcName opts) = false := by
  unfold popupSrcName
  cases h : opts.popupLang <;> decide

theorem mem_planPaths (opts : Options) (x : String) :
    x ∈ (filePlan opts).map FileArtifact.relativePath ↔
      (opts.additionalFeatures.background = true ∧ x = filePath opts (bgFileName opts)) ∨
      (opts.additionalFeatures.content = true ∧ x = filePath opts (contentFileName opts)) ∨
      (opts.additionalFeatures.options = true ∧ x = filePath opts "options.html") ∨
      (opts.additionalFeatures.devtools = true ∧ opts.manifestVersion = 2 ∧
        x = filePath opts "devtools.html") ∨
      (opts.additionalFeatures.popup = true ∧
        (x = filePath opts (popupSrcName opts) ∨ x = filePath opts "popup.html")) ∨
      x = "manifest.json" := by
  cases h1 : opts.additionalFeatures.background <;>
    cases h2 : opts.additionalFeatures.content <;>
      cases h3 : opts.additionalFeatures.options <;>
        cases h4 : opts.additionalFeatures.devtools <;>
          cases h5 : opts.additionalFeatures.popup <;>
            cases hv : opts.manifestVersion == 2 <;>
              simp_all [filePlan, or_assoc]

theorem mem_manifestRefs (opts : Options) (r : String) :
    r ∈ manifestRefs (synthManifest opts) ↔
      (opts.additionalFeatures.background = true ∧ r = "background.js") ∨
      (opts.additionalFeatures.content = true ∧ r = "content.js") ∨
      (opts.additionalFeatures.options = true ∧ r = "options.html") ∨
      (opts.additionalFeatures.devtools = true ∧ opts.manifestVersion = 2 ∧
        r = "devtools.html") ∨
      (opts.additionalFeatures.popup = true ∧ r = "popup.html") := by
  cases h1 : opts.additionalFeatures.background <;>
    cases h2 : opts.additionalFeatures.content <;>
      cases h3 : opts.additionalFeatures.options <;>
        cases h4 : opts.additionalFeatures.devtools <;>
          cases h5 : opts.additionalFeatures.popup <;>
            cases h3v : opts.manifestVersion == 3 <;>
              cases h2v : opts.manifestVersion == 2 <;>
                simp_all [manifestRefs, synthManifest, Background.refs, or_assoc]

theorem devtoolsPath_mem_plan_iff (opts : Options) :
    filePath opts "devtools.html" ∈ (filePlan opts).map FileArtifact.relativePath ↔
      (opts.additionalFeatures.devtools = true ∧ opts.manifestVersion = 2) := by
  rw [mem_planPaths]
  cases hbg : opts.backgroundLang <;> cases hcl : opts.contentLang <;>
    cases hpl : opts.popupLang <;> cases hu : opts.useSrcFolder <;>
      simp [filePath, bgFileName, contentFileName, popupSrcName, hbg, hcl, hpl, hu]

/-- Claim C10: for every normalized option set, the synthesized manifest has
the fixed `version` field `"1.0.0"`, and its `name`, `description` and
`permissions` fields are copied verbatim from the options. -/
theorem manifest_fixed_and_verbatim_fields (opts : Options) :
    (synthManifest opts).version = "1.0.0" ∧
    (synthManifest opts).name = opts.extensionName ∧
    (synthManifest opts).description = opts.extensionDescription ∧
    (synthManifest opts).permissions = opts.permissions :=
  ⟨rfl, rfl, rfl, rfl⟩

/-- Claim C2: under manifest version 3 the manifest never carries a
`devtools_page`, a `browser_action` or a scripts-style background field; under
manifest version 2 it never carries a service-worker background, an `action`
or an `options_ui`. -/
theorem no_cross_version_leakage (opts : Options) :
    (opts.manifestVersion = 3 →
        (synthManifest opts).devtools_page = none ∧
        (synthManifest opts).browser_action = none ∧
        ∀ ss p, (synthManifest opts).background ≠ some (Background.v2 ss p)) ∧
    (opts.manifestVersion = 2 →
        (∀ sw e, (synthManifest opts).background ≠ some (Background.v3 sw e)) ∧
        (synthManifest opts).action = none ∧
        (synthManifest opts).options_ui = none) := by
  constructor
  · intro h
    cases hb : opts.additionalFeatures.background <;>
      simp [synthManifest, h, hb]
  · intro h
    cases hb : opts.additionalFeatures.background <;>
      simp [synthManifest, h, hb]

/-- Witness for C2 at concrete V3 and V2 option sets. -/
theorem no_cross_version_leakage_witness :
    (synthManifest sampleOpts).devtools_page = none ∧
    (synthManifest { sampleOpts with manifestVersion := 2 }).action = none :=
  ⟨((no_cross_version_leakage sampleOpts).1 rfl).1,
   ((no_cross_version_leakage { sampleOpts with manifestVersion := 2 }).2 rfl).2.1⟩

/-- Claim C8: when the popup feature is not selected, the manifest still
carries the empty-object stub: `browser_action = {}` under V2 and
`action = {}` under V3. -/
theorem popup_stub_emitted (opts : Options)
    (h : opts.additionalFeatures.popup = false) :
    (opts.manifestVersion = 2 →
        (synthManifest opts).browser_action = some { default_popup := none }) ∧
    (opts.manifestVersion = 3 →
        (synthManifest opts).action = some { default_popup := none }) := by
  constructor <;> intro hv <;> simp [synthManifest, h, hv]

/-- Witness for C8 at a concrete V3 option set without the popup feature. -/
theorem popup_stub_emitted_witness :
    (synthManifest sampleOpts).action = some { default_popup := none } :=
  (popup_stub_emitted sampleOpts rfl).2 rfl

/-- Claim C6: the devtools feature is materialized (a `devtools.html` artifact
in the file plan and a `devtools_page` manifest entry) exactly when the
feature is selected and the manifest version is 2; under version 3 it is
dropped silently, with no artifact and no entry (synthesis is total, so no
error can be raised). -/
theorem devtools_materialized_iff (opts : Options) :
    (((synthManifest opts).devtools_page = some "devtools.html" ∧
        filePath opts "devtools.html" ∈ (filePlan opts).map FileArtifact.relativePath) ↔
      (opts.additionalFeatures.devtools = true ∧ opts.manifestVersion = 2)) ∧
    (opts.manifestVersion = 3 →
        (synthManifest opts).devtools_page = none ∧
        filePath opts "devtools.html" ∉ (filePlan opts).map FileArtifact.relativePath) := by
  constructor
  · constructor
    · rintro ⟨_, hm⟩
      exact (devtoolsPath_mem_plan_iff opts).1 hm
    · rintro ⟨h1, h2⟩
      exact ⟨by simp [synthManifest, h1, h2], (devtoolsPath_mem_plan_iff opts).2 ⟨h1, h2⟩⟩
  · intro h3
    constructor
    · simp [synthManifest, h3]
    · rw [devtoolsPath_mem_plan_iff]
      simp [h3]

/-- Witness for C6: with devtools selected, V2 materializes the page and V3
drops it. -/
theorem devtools_materialized_iff_witness :
    ((synthManifest { sampleOpts with
        manifestVersion := 2
        additionalFeatures := { devtools := true } }).devtools_page = some "devtools.html" ∧
      filePath { sampleOpts with
        manifestVersion := 2
        additionalFeatures := { devtools := true } } "devtools.html" ∈
        (filePlan { sampleOpts with
          manifestVersion := 2
          additionalFeatures := { devtools := true } }).map FileArtifact.relativePath) ∧
    ((synthManifest { sampleOpts with
        additionalFeatures := { devtools := true } }).devtools_page = none) :=
  ⟨((devtools_materialized_iff _).1).2 ⟨rfl, rfl⟩,
   (((devtools_materialized_iff { sampleOpts with
       additionalFeatures := { devtools := true } }).2) rfl).1⟩

/-- Claim C7: every non-manifest artifact of the file plan lies below the
`src/` subdirectory exactly when `useSrcFolder` is set, while the
`manifest.json` artifact is always at the project root. -/
theorem src_folder_placement (opts : Options) :
    ("manifest.json" ∈ (filePlan opts).map FileArtifact.relativePath) ∧
    (∀ a ∈ filePlan opts, a.relativePath ≠ "manifest.json" →
        underSrc a.relativePath = opts.useSrcFolder) := by
  constructor
  · rw [mem_planPaths]
    tauto
  · intro a ha hne
    have hm : a.relativePath ∈ (filePlan opts).map FileArtifact.relativePath :=
      List.mem_map_of_mem _ ha
    rw [mem_planPaths] at hm
    rcases hm with ⟨_, he⟩ | ⟨_, he⟩ | ⟨_, he⟩ | ⟨_, _, he⟩ | ⟨_, he | he⟩ | he
    · rw [he]; exact underSrc_filePath opts _ (underSrc_bgFileName opts)
    · rw [he]; exact underSrc_filePath opts _ (underSrc_contentFileName opts)
    · rw [he]; exact underSrc_filePath opts _ (by decide)
    · rw [he]; exact underSrc_filePath opts _ (by decide)
    · rw [he]; exact underSrc_filePath opts _ (underSrc_popupSrcName opts)
    · rw [he]; exact underSrc_filePath opts _ (by decide)
    · exact absurd he hne

/-- Witness for C7 at a concrete option set with a background artifact. -/
theorem src_folder_placement_witness :
    underSrc (filePath c1opts (bgFileName c1opts)) = c1opts.useSrcFolder := by
  refine (src_folder_placement c1opts).2
    { relativePath := filePath c1opts (bgFileName c1opts)
      content := bgFileContent c1opts } ?_ (by decide)
  exact List.mem_cons_self _ _

/-- Claim C1 (amended): every filename referenced in the synthesized manifest
is backed by a file-plan artifact whose path is the reference prefixed with
`src/` exactly when `useSrcFolder` is set and, for the background/content
script references, with the authored `.ts` extension when the corresponding
language is TypeScript; the devtools reference is absent entirely under
manifest version 3. -/
theorem referential_integrity (opts : Options) :
    (∀ r ∈ manifestRefs (synthManifest opts),
        filePath opts (authoredFor opts r) ∈ (filePlan opts).map FileArtifact.relativePath) ∧
    (opts.manifestVersion = 3 →
        "devtools.html" ∉ manifestRefs (synthManifest opts)) := by
  constructor
  · intro r hr
    rw [mem_manifestRefs] at hr
    rw [mem_planPaths]
    rcases hr with ⟨h, rfl⟩ | ⟨h, rfl⟩ | ⟨h, rfl⟩ | ⟨h, hv, rfl⟩ | ⟨h, rfl⟩
    · exact Or.inl ⟨h, by simp [authoredFor]⟩
    · exact Or.inr (Or.inl ⟨h, by simp [authoredFor]⟩)
    · exact Or.inr (Or.inr (Or.inl ⟨h, by simp [authoredFor]⟩))
    · exact Or.inr (Or.inr (Or.inr (Or.inl ⟨h, hv, by simp [authoredFor]⟩)))
    · exact Or.inr (Or.inr (Or.inr (Or.inr (Or.inl ⟨h, Or.inr (by simp [authoredFor])⟩))))
  · intro h3
    rw [mem_manifestRefs]
    simp [h3]

/-- Witness for C1 at a concrete option set with the popup feature. -/
theorem referential_integrity_witness :
    filePath { sampleOpts with additionalFeatures := { popup := true } }
        (authoredFor { sampleOpts with additionalFeatures := { popup := true } } "popup.html") ∈
      (filePlan { sampleOpts with additionalFeatures := { popup := true } }).map
        FileArtifact.relativePath :=
  (referential_integrity _).1 "popup.html" (by decide)

/-- Counterexample to C1 as stated: with a TypeScript background script the
manifest references `background.js`, yet no file-plan artifact has exactly
that path (`background.ts` is authored instead). -/
theorem referential_integrity_counterexample :
    ("background.js" ∈ manifestRefs (synthManifest c1opts)) ∧
    ("background.js" ∉ (filePlan c1opts).map FileArtifact.relativePath) := by
  constructor <;> decide

theorem getEntry_setEntry_self (m : EntryMap) (k v : String) :
    getEntry (setEntry m k v) k = some v := by
  induction m with
  | nil => simp [setEntry, getEntry]
  | cons hd tl ih =>
      obtain ⟨k0, v0⟩ := hd
      by_cases h : k0 = k <;> simp [setEntry, getEntry, h, ih]

theorem getEntry_setEntry_ne (m : EntryMap) (k k' v : String) (h : k ≠ k') :
    getEntry (setEntry m k v) k' = getEntry m k' := by
  induction m with
  | nil => simp [setEntry, getEntry, h]
  | cons hd tl ih =>
      obtain ⟨k0, v0⟩ := hd
      by_cases h0 : k0 = k
      · subst h0
        simp [setEntry, getEntry, h]
      · simp [setEntry, getEntry, h0, ih]

theorem setDefaultEntry_of_truthy (m : EntryMap) (k d : String)
    (h : truthyStr (getEntry m k) = true) : setDefaultEntry m k d = m := by
  simp [setDefaultEntry, h]

theorem getEntry_setDefaultEntry_self (m : EntryMap) (k d : String) :
    getEntry (setDefaultEntry m k d) k =
      if truthyStr (getEntry m k) = true then getEntry m k else some d := by
  unfold setDefaultEntry
  split
  · simp_all
  · simp_all [getEntry_setEntry_self]

theorem getEntry_setDefaultEntry_ne (m : EntryMap) (k k' d : String) (h : k ≠ k') :
    getEntry (setDefaultEntry m k d) k' = getEntry m k' := by
  unfold setDefaultEntry
  split
  · rfl
  · exact getEntry_setEntry_ne m k k' d h

theorem truthy_getEntry_setDefaultEntry (m : EntryMap) (k d : String) (hd : d ≠ "") :
    truthyStr (getEntry (setDefaultEntry m k d) k) = true := by
  rw [getEntry_setDefaultEntry_self]
  split
  · assumption
  · simp [truthyStr, isEmpty_false_of_ne d hd]

theorem truthy_preserved_setDefaultEntry (m : EntryMap) (k k' d : String)
    (h : truthyStr (getEntry m k') = true) :
    truthyStr (getEntry (setDefaultEntry m k d) k') = true := by
  by_cases he : k = k'
  · subst he
    rw [setDefaultEntry_of_truthy m k d h]
    exact h
  · rw [getEntry_setDefaultEntry_ne m k k' d he]
    exact h

theorem getEntry_preserved_setDefaultEntry (m : EntryMap) (k k' d v : String)
    (h : getEntry m k' = some v) (hv : v ≠ "") :
    getEntry (setDefaultEntry m k d) k' = some v := by
  by_cases he : k = k'
  · subst he
    rw [setDefaultEntry_of_truthy]
    · exact h
    · simp [h, truthyStr, isEmpty_false_of_ne v hv]
  · rw [getEntry_setDefaultEntry_ne m k k' d he]
    exact h

theorem setDefaultEntry_idem (m : EntryMap) (k d : String) (hd : d ≠ "") :
    setDefaultEntry (setDefaultEntry m k d) k d = setDefaultEntry m k d :=
  setDefaultEntry_of_truthy _ k d (truthy_getEntry_setDefaultEntry m k d hd)

theorem truthyStr_some (v : String) (hv : v ≠ "") : truthyStr (some v) = true := by
  simp [truthyStr, isEmpty_false_of_ne v hv]

theorem bundlerBlock_preserves_entry (flag : Bool) (k1 v1 k2 v2 : String)
    (needTs : Bool) (dd : EntryMap) (k v : String)
    (h : getEntry dd k = some v) (hv : v ≠ "") :
    getEntry (bundlerBlock flag k1 v1 k2 v2 needTs dd) k = some v := by
  unfold bundlerBlock
  cases flag
  · simpa using h
  · simp only [if_true]
    have hd2 : getEntry (setDefaultEntry (setDefaultEntry dd k1 v1) k2 v2) k = some v :=
      getEntry_preserved_setDefaultEntry _ _ _ _ _
        (getEntry_preserved_setDefaultEntry _ _ _ _ _ h hv) hv
    split
    · rename_i hg
      by_cases hk : "typescript" = k
      · subst hk
        rw [hd2] at hg
        rw [truthyStr_some v hv] at hg
        simp at hg
      · rw [getEntry_setEntry_ne _ _ _ _ hk]
        exact hd2
    · exact hd2

theorem bundlerBlock_preserves_truthy (flag : Bool) (k1 v1 k2 v2 : String)
    (needTs : Bool) (dd : EntryMap) (k : String)
    (h : truthyStr (getEntry dd k) = true) :
    truthyStr (getEntry (bundlerBlock flag k1 v1 k2 v2 needTs dd) k) = true := by
  unfold bundlerBlock
  cases flag
  · simpa using h
  · simp only [if_true]
    have hd2 : truthyStr (getEntry (setDefaultEntry (setDefaultEntry dd k1 v1) k2 v2) k) = true :=
      truthy_preserved_setDefaultEntry _ _ _ _
        (truthy_preserved_setDefaultEntry _ _ _ _ h)
    split
    · by_cases hk : "typescript" = k
      · subst hk
        rw [getEntry_setEntry_self]
        decide
      · rw [getEntry_setEntry_ne _ _ _ _ hk]
        exact hd2
    · exact hd2

theorem bundlerBlock_noop (flag : Bool) (k1 v1 k2 v2 : String) (needTs : Bool)
    (dd : EntryMap)
    (h : flag = true →
      truthyStr (getEntry dd k1) = true ∧ truthyStr (getEntry dd k2) = true ∧
        (needTs = true → truthyStr (getEntry dd "typescript") = true)) :
    bundlerBlock flag k1 v1 k2 v2 needTs dd = dd := by
  unfold bundlerBlock
  cases flag
  · simp
  · obtain ⟨h1, h2, h3⟩ := h rfl
    simp only [if_true]
    rw [setDefaultEntry_of_truthy _ _ _ h1, setDefaultEntry_of_truthy _ _ _ h2]
    cases hts : needTs
    · simp
    · simp [h3 hts]

theorem bundlerBlock_ensures (flag : Bool) (k1 v1 k2 v2 : String) (needTs : Bool)
    (dd : EntryMap) (hf : flag = true) (hv1 : v1 ≠ "") (hv2 : v2 ≠ "")
    (hk1 : k1 ≠ "typescript") (hk2 : k2 ≠ "typescript") (hk12 : k2 ≠ k1) :
    truthyStr (getEntry (bundlerBlock flag k1 v1 k2 v2 needTs dd) k1) = true ∧
    truthyStr (getEntry (bundlerBlock flag k1 v1 k2 v2 needTs dd) k2) = true ∧
    (needTs = true →
      truthyStr (getEntry (bundlerBlock flag k1 v1 k2 v2 needTs dd) "typescript") = true) := by
  subst hf
  unfold bundlerBlock
  simp only [if_true]
  have t1 : truthyStr (getEntry (setDefaultEntry (setDefaultEntry dd k1 v1) k2 v2) k1) = true := by
    rw [getEntry_setDefaultEntry_ne _ _ _ _ hk12]
    exact truthy_getEntry_setDefaultEntry _ _ _ hv1
  have t2 : truthyStr (getEntry (setDefaultEntry (setDefaultEntry dd k1 v1) k2 v2) k2) = true :=
    truthy_getEntry_setDefaultEntry _ _ _ hv2
  split
  · refine ⟨?_, ?_, ?_⟩
    · rw [getEntry_setEntry_ne _ _ _ _ (fun he => hk1 he.symm)]
      exact t1
    · rw [getEntry_setEntry_ne _ _ _ _ (fun he => hk2 he.symm)]
      exact t2
    · intro _
      rw [getEntry_setEntry_self]
      decide
  · rename_i hg
    refine ⟨t1, t2, ?_⟩
    intro hts
    rw [hts] at hg
    simp only [Bool.true_and, Bool.not_eq_true'] at hg
    simpa using hg

theorem jqueryDevBlock_preserves_entry (opts : Options) (dd : EntryMap) (k v : String)
    (h : getEntry dd k = some v) (hv : v ≠ "") :
    getEntry (jqueryDevBlock opts dd) k = some v := by
  unfold jqueryDevBlock
  split
  · split
    · exact getEntry_preserved_setDefaultEntry _ _ _ _ _ h hv
    · exact h
  · exact h

theorem jqueryDevBlock_preserves_truthy (opts : Options) (dd : EntryMap) (k : String)
    (h : truthyStr (getEntry dd k) = true) :
    truthyStr (getEntry (jqueryDevBlock opts dd) k) = true := by
  unfold jqueryDevBlock
  split
  · split
    · exact truthy_preserved_setDefaultEntry _ _ _ _ h
    · exact h
  · exact h

theorem jqueryDevBlock_noop (opts : Options) (dd : EntryMap)
    (h : opts.buildOptions.jqueryNpm = true → tsNeeded opts = true →
      truthyStr (getEntry dd "@types/jquery") = true) :
    jqueryDevBlock opts dd = dd := by
  unfold jqueryDevBlock
  split
  · rename_i hf
    split
    · rename_i ht
      exact setDefaultEntry_of_truthy _ _ _ (h hf ht)
    · rfl
  · rfl

theorem jqueryDevBlock_ensures (opts : Options) (dd : EntryMap)
    (hf : opts.buildOptions.jqueryNpm = true) (ht : tsNeeded opts = true) :
    truthyStr (getEntry (jqueryDevBlock opts dd) "@types/jquery") = true := by
  unfold jqueryDevBlock
  rw [hf, ht]
  simp only [if_true]
  exact truthy_getEntry_setDefaultEntry _ _ _ (by decide)

theorem jqueryDepBlock_preserves_entry (opts : Options) (dp : EntryMap) (k v : String)
    (h : getEntry dp k = some v) (hv : v ≠ "") :
    getEntry (jqueryDepBlock opts dp) k = some v := by
  unfold jqueryDepBlock
  split
  · exact getEntry_preserved_setDefaultEntry _ _ _ _ _ h hv
  · exact h

theorem jqueryDepBlock_idem (opts : Options) (dp : EntryMap) :
    jqueryDepBlock opts (jqueryDepBlock opts dp) = jqueryDepBlock opts dp := by
  unfold jqueryDepBlock
  cases hf : opts.buildOptions.jqueryNpm
  · simp
  · simp only [if_true]
    exact setDefaultEntry_idem _ _ _ (by decide)

theorem devChain_idem (opts : Options) (dd : EntryMap) :
    jqueryDevBlock opts (rollupBlock opts (webpackBlock opts
      (jqueryDevBlock opts (rollupBlock opts (webpackBlock opts dd))))) =
    jqueryDevBlock opts (rollupBlock opts (webpackBlock opts dd)) := by
  set dd1 := jqueryDevBlock opts (rollupBlock opts (webpackBlock opts dd)) with hdd1
  have hw : webpackBlock opts dd1 = dd1 := by
    unfold webpackBlock
    apply bundlerBlock_noop
    intro hf
    have ens := bundlerBlock_ensures opts.buildOptions.bundlerWebpack "webpack" "^5.0.0"
      "webpack-cli" "^4.0.0" (tsNeeded opts) dd hf (by decide) (by decide) (by decide)
      (by decide) (by decide)
    refine ⟨?_, ?_, ?_⟩
    · rw [hdd1]
      apply jqueryDevBlock_preserves_truthy
      unfold rollupBlock
      apply bundlerBlock_preserves_truthy
      exact ens.1
    · rw [hdd1]
      apply jqueryDevBlock_preserves_truthy
      unfold rollupBlock
      apply bundlerBlock_preserves_truthy
      exact ens.2.1
    · intro hts
      rw [hdd1]
      apply jqueryDevBlock_preserves_truthy
      unfold rollupBlock
      apply bundlerBlock_preserves_truthy
      exact ens.2.2 hts
  rw [hw]
  have hr : rollupBlock opts dd1 = dd1 := by
    unfold rollupBlock
    apply bundlerBlock_noop
    intro hf
    have ens := bundlerBlock_ensures opts.buildOptions.bundlerRollup "rollup" "^2.0.0"
      "rollup-plugin-typescript2" "^0.34.1" (tsNeeded opts) (webpackBlock opts dd) hf
      (by decide) (by decide) (by decide) (by decide) (by decide)
    refine ⟨?_, ?_, ?_⟩
    · rw [hdd1]
      apply jqueryDevBlock_preserves_truthy
      exact ens.1
    · rw [hdd1]
      apply jqueryDevBlock_preserves_truthy
      exact ens.2.1
    · intro hts
      rw [hdd1]
      apply jqueryDevBlock_preserves_truthy
      exact ens.2.2 hts
  rw [hr]
  apply jqueryDevBlock_noop
  intro hf hts
  rw [hdd1]
  exact jqueryDevBlock_ensures opts _ hf hts

theorem orDefaultStr_self (o : Option String) (d : String) :
    orDefaultStr (some (orDefaultStr o d)) d = orDefaultStr o d := by
  cases o with
  | none => simp [orDefaultStr]
  | some s =>
      by_cases h : s.isEmpty <;> simp [orDefaultStr, h]

theorem mergePkg_idem (opts : Options) (pre : Pkg) :
    mergePkg opts (mergePkg opts pre) = mergePkg opts pre := by
  unfold mergePkg
  simp only [Option.getD_some, Pkg.mk.injEq]
  refine ⟨?_, ?_, ?_, ?_, ?_⟩
  · exact congrArg some (orDefaultStr_self _ _)
  · exact congrArg some (orDefaultStr_self _ _)
  · exact congrArg some (setDefaultEntry_idem _ _ _ (by decide))
  · exact congrArg some (devChain_idem _ _)
  · exact congrArg some (jqueryDepBlock_idem _ _)

/-- Claim C5 (amended): the dependency-resolver merge is first-write-wins for
every field whose pre-existing value is truthy (non-empty): `name`, `version`,
every `scripts` entry and every dependency entry keep their values, and
re-running the resolver is idempotent.  A field present with the empty-string
value counts as absent (JavaScript falsiness) and is overwritten. -/
theorem merge_first_write_wins (opts : Options) (pre : Pkg) :
    (∀ s, pre.name = some s → s ≠ "" → (mergePkg opts pre).name = some s) ∧
    (∀ s, pre.version = some s → s ≠ "" → (mergePkg opts pre).version = some s) ∧
    (∀ k v, getEntry (pre.scripts.getD []) k = some v → v ≠ "" →
        getEntry ((mergePkg opts pre).scripts.getD []) k = some v) ∧
    (∀ k v, getEntry (pre.devDependencies.getD []) k = some v → v ≠ "" →
        getEntry ((mergePkg opts pre).devDependencies.getD []) k = some v) ∧
    (∀ k v, getEntry (pre.dependencies.getD []) k = some v → v ≠ "" →
        getEntry ((mergePkg opts pre).dependencies.getD []) k = some v) ∧
    mergePkg opts (mergePkg opts pre) = mergePkg opts pre := by
  refine ⟨?_, ?_, ?_, ?_, ?_, mergePkg_idem opts pre⟩
  · intro s h hv
    simp [mergePkg, h, orDefaultStr, isEmpty_false_of_ne s hv]
  · intro s h hv
    simp [mergePkg, h, orDefaultStr, isEmpty_false_of_ne s hv]
  · intro k v h hv
    simp only [mergePkg, Option.getD_some]
    exact getEntry_preserved_setDefaultEntry _ _ _ _ _ h hv
  · intro k v h hv
    simp only [mergePkg, Option.getD_some]
    apply jqueryDevBlock_preserves_entry _ _ _ _ _ hv
    · unfold rollupBlock
      apply bundlerBlock_preserves_entry _ _ _ _ _ _ _ _ _ _ hv
      unfold webpackBlock
      exact bundlerBlock_preserves_entry _ _ _ _ _ _ _ _ _ h hv
  · intro k v h hv
    simp only [mergePkg, Option.getD_some]
    exact jqueryDepBlock_preserves_entry _ _ _ _ h hv

/-- Witness for C5: a pre-existing `scripts.build = "custom"` survives the
merge unchanged. -/
theorem merge_first_write_wins_witness :
    getEntry ((mergePkg sampleOpts
        ({ scripts := some [("build", "custom")] } : Pkg)).scripts.getD []) "build" =
      some "custom" :=
  (merge_first_write_wins sampleOpts
      { scripts := some [("build", "custom")] }).2.2.1 "build" "custom" rfl (by decide)

/-- Counterexample to C5 as stated: a `scripts.build` entry that is present
but empty is overwritten with the default `"tsc"`, so presence alone does not
guarantee preservation. -/
theorem merge_first_write_wins_counterexample :
    c5pre.scripts = some [("build", "")] ∧
    (mergePkg c5opts c5pre).scripts = some [("build", "tsc")] ∧
    (synthesize c5opts (some c5pre)).pkg = some (mergePkg c5opts c5pre) := by
  refine ⟨rfl, ?_, rfl⟩
  decide

/-- Claim C3 (amended): the normalizer trims `name` and `description` and
fails with `MissingField` when the name, the description or the manifest
version is absent; a value that is empty after trimming is accepted (there is
no emptiness check). -/
theorem normalizer_trims_and_rejects_missing (raw : RawOptions) :
    ((raw.extNameRaw = none ∨ raw.extDescRaw = none ∨ raw.versionRaw = none) →
        normalizeOptions raw = Except.error NormError.MissingField) ∧
    (∀ n d opts, raw.extNameRaw = some n → raw.extDescRaw = some d →
        normalizeOptions raw = Except.ok opts →
        opts.extensionName = jsTrim n ∧ opts.extensionDescription = jsTrim d) := by
  constructor
  · rintro (h | h | h) <;>
      cases hn : raw.extNameRaw <;> cases hd : raw.extDescRaw <;>
        cases hv : raw.versionRaw <;> simp_all [normalizeOptions]
  · intro n d opts hn hd hok
    cases hv : raw.versionRaw
    · rw [normalizeOptions] at hok
      simp [hn, hd, hv] at hok
    · rw [normalizeOptions] at hok
      simp only [hn, hd, hv] at hok
      cases hp : (raw.permissionsRaw.getD []).length == 0
      · rw [hp] at hok
        simp only [Bool.false_eq_true, if_false, Except.ok.injEq] at hok
        rw [← hok]
        exact ⟨rfl, rfl⟩
      · rw [hp] at hok
        simp at hok

/-- Witness for C3: a missing description is rejected, and trimming is applied
to an accepted name. -/
theorem normalizer_trims_and_rejects_missing_witness :
    normalizeOptions { sampleRaw with extDescRaw := none } =
      Except.error NormError.MissingField ∧
    (normalizeOptions { sampleRaw with extNameRaw := some " Demo " } =
        Except.ok { sampleOpts with extensionName := jsTrim " Demo " } →
      ({ sampleOpts with extensionName := jsTrim " Demo " } : Options).extensionName =
        jsTrim " Demo ") := by
  constructor
  · exact (normalizer_trims_and_rejects_missing
      { sampleRaw with extDescRaw := none }).1 (Or.inr (Or.inl rfl))
  · intro hok
    exact ((normalizer_trims_and_rejects_missing
      { sampleRaw with extNameRaw := some " Demo " }).2
        " Demo " "A demo extension" _ rfl rfl hok).1

/-- Counterexample to C3 as stated: a name consisting only of whitespace trims
to the empty string yet normalization succeeds instead of failing with
`MissingField`. -/
theorem normalizer_trims_and_rejects_missing_counterexample :
    normalizeOptions c3raw = Except.ok c3opts ∧ c3opts.extensionName = "" :=
  ⟨rfl, rfl⟩

/-- Claim C4: the `none` sentinel collapses the effective build-option set to
empty regardless of the other selections, and an empty effective set produces
no package descriptor at all. -/
theorem none_sentinel_empties_and_skips_pkg :
    (∀ raw opts, normalizeOptions raw = Except.ok opts →
        (raw.buildOptionsRaw.getD {}).noneSentinel = true →
        opts.buildOptions.isEmpty = true) ∧
    (∀ opts pre, opts.buildOptions.isEmpty = true →
        (synthesize opts pre).pkg = none) := by
  constructor
  · intro raw opts hok hs
    cases hn : raw.extNameRaw with
    | none => rw [normalizeOptions] at hok; simp [hn] at hok
    | some n =>
      cases hd : raw.extDescRaw with
      | none => rw [normalizeOptions] at hok; simp [hn, hd] at hok
      | some d =>
        cases hv : raw.versionRaw with
        | none => rw [normalizeOptions] at hok; simp [hn, hd, hv] at hok
        | some v =>
          rw [normalizeOptions] at hok
          simp only [hn, hd, hv] at hok
          cases hp : (raw.permissionsRaw.getD []).length == 0
          · rw [hp] at hok
            simp only [Bool.false_eq_true, if_false, Except.ok.injEq] at hok
            rw [← hok]
            show (normalizeBuildOptions (raw.buildOptionsRaw.getD {})).isEmpty = true
            rw [normalizeBuildOptions, hs]
            simp [BuildOptions.isEmpty]
          · rw [hp] at hok
            simp at hok
  · intro opts pre h
    simp [synthesize, h]

/-- Witness for C4: a raw selection carrying `package` together with the
sentinel normalizes to the empty set, and the empty set yields no package
descriptor. -/
theorem none_sentinel_empties_and_skips_pkg_witness :
    sampleOpts.buildOptions.isEmpty = true ∧ (synthesize sampleOpts none).pkg = none := by
  constructor
  · exact (none_sentinel_empties_and_skips_pkg).1
      { sampleRaw with buildOptionsRaw := some { noneSentinel := true, package := true } }
      sampleOpts rfl rfl
  · exact (none_sentinel_empties_and_skips_pkg).2 sampleOpts none rfl

/-- Claim C9 (amended): when name, description and manifest version are
present and the permission set is empty, the whole pipeline fails with
`EmptySet` before any synthesis runs — the error is its only output, so no
manifest, file plan or package descriptor exists. -/
theorem empty_permissions_failfast (raw : RawOptions) (pre : Option Pkg)
    (n : String) (d : String) (v : Nat)
    (hn : raw.extNameRaw = some n) (hd : raw.extDescRaw = some d)
    (hv : raw.versionRaw = some v)
    (hp : (raw.permissionsRaw.getD []).length = 0) :
    run raw pre = Except.error NormError.EmptySet := by
  rw [run, normalizeOptions]
  simp [hn, hd, hv, hp, Except.map]

/-- Witness for C9 at a concrete raw option bag with empty permissions. -/
theorem empty_permissions_failfast_witness :
    run { sampleRaw with permissionsRaw := some ([] : List String) } none =
      Except.error NormError.EmptySet :=
  empty_permissions_failfast _ none "Demo" "A demo extension" 3 rfl rfl rfl rfl

/-- Counterexample to C9 as stated: with an empty permission set but a missing
name, normalization fails with `MissingField`, not `EmptySet` — the earlier
check takes precedence. -/
theorem empty_permissions_failfast_counterexample :
    normalizeOptions c9raw = Except.error NormError.MissingField ∧
    NormError.MissingField ≠ NormError.EmptySet :=
  ⟨rfl, by decide⟩
